import Mathlib

/-!
Verification of the query service in `app.py` (dissociation queries over a
neuroimaging meta-analysis database).

The embedding models:
* Python `float(str)` parsing and IEEE special values (`nan`, `inf`) over
  exact rationals (`PyFloat`); rounding of finite values is not modelled,
  since every claim under study concerns the structure of the predicates and
  not floating-point rounding.
* Python string helpers used by the handlers (`str.split("_")`,
  `str.replace("_", " ")`, `str.strip()`).
* The SQL executed by `dissociate_locations` (the second, complete handler at
  lines 166-255 of `app.py`): two `SELECT DISTINCT study_id` sets filtered by
  a squared-distance predicate, a left anti-join on `study_id`, `ORDER BY
  study_id`, `LIMIT 2000`, plus the metadata sample sub-query (`LIMIT 100`).
  Database rows are modelled as lists of records whose coordinate columns are
  `Option ℚ` (SQL `NULL` or a finite numeric); query parameters, which come
  from user input, are arbitrary `PyFloat`s.  Comparison follows PostgreSQL
  float8 ordering (`NaN` is greater than every other value and equal to
  itself).
* Flask's `add_url_rule` endpoint bookkeeping, which raises when a second,
  distinct view function is registered under an existing endpoint name.
-/

namespace App

/-! ### Python floats: IEEE special values over exact rationals -/

inductive PyFloat where
  | finite (q : ℚ)
  | inf
  | ninf
  | nan
deriving DecidableEq, Repr

abbrev PF3 := PyFloat × PyFloat × PyFloat

def pyNeg : PyFloat → PyFloat
  | .finite q => .finite (-q)
  | .inf => .ninf
  | .ninf => .inf
  | .nan => .nan

def pyAdd : PyFloat → PyFloat → PyFloat
  | .nan, _ => .nan
  | _, .nan => .nan
  | .inf, .ninf => .nan
  | .ninf, .inf => .nan
  | .inf, _ => .inf
  | _, .inf => .inf
  | .ninf, _ => .ninf
  | _, .ninf => .ninf
  | .finite a, .finite b => .finite (a + b)

def pySub (a b : PyFloat) : PyFloat := pyAdd a (pyNeg b)

def pyMul : PyFloat → PyFloat → PyFloat
  | .nan, _ => .nan
  | _, .nan => .nan
  | .inf, .inf => .inf
  | .inf, .ninf => .ninf
  | .ninf, .inf => .ninf
  | .ninf, .ninf => .inf
  | .inf, .finite q => if 0 < q then .inf else if q < 0 then .ninf else .nan
  | .finite q, .inf => if 0 < q then .inf else if q < 0 then .ninf else .nan
  | .ninf, .finite q => if 0 < q then .ninf else if q < 0 then .inf else .nan
  | .finite q, .ninf => if 0 < q then .ninf else if q < 0 then .inf else .nan
  | .finite a, .finite b => .finite (a * b)

/-- PostgreSQL float8 ordering: `-inf < finite < inf < NaN`, `NaN = NaN`. -/
def pyLe : PyFloat → PyFloat → Bool
  | _, .nan => true
  | .nan, _ => false
  | .ninf, _ => true
  | _, .ninf => false
  | _, .inf => true
  | .inf, _ => false
  | .finite a, .finite b => decide (a ≤ b)

/-! ### Python string primitives -/

/-- The whitespace characters stripped by Python's `str.strip()`. -/
def isPyWs (c : Char) : Bool :=
  c = ' ' || c = '\t' || c = '\n' || c = '\x0d' || c = '\x0b' || c = '\x0c'

/-- Strip leading and trailing whitespace from a character list. -/
def stripList (l : List Char) : List Char :=
  ((l.dropWhile isPyWs).reverse.dropWhile isPyWs).reverse

/-- Embeds Python `s.strip()`. -/
def pyStrip (s : String) : String := String.mk (stripList s.data)

/-- Embeds Python `s.replace("_", " ")` (single-character pattern). -/
def pyReplUnderscoreSpace (s : String) : String :=
  String.mk (s.data.map (fun c => if c = '_' then ' ' else c))

/-- Embeds `norm` from `dissociate_terms` (app.py lines 52-53):
`s.replace("_", " ").strip()`. -/
def norm (s : String) : String := pyStrip (pyReplUnderscoreSpace s)

def splitUAux : List Char → List Char → List String
  | [], acc => [String.mk acc.reverse]
  | c :: cs, acc =>
    if c = '_' then String.mk acc.reverse :: splitUAux cs []
    else splitUAux cs (c :: acc)

/-- Embeds Python `s.split("_")` (e.g. `"" ↦ [""]`, `"a__b" ↦ ["a","","b"]`). -/
def splitOnUnderscore (s : String) : List String := splitUAux s.data []

/-! ### Python `float(str)` parsing -/

def asciiLower (c : Char) : Char :=
  if 'A' ≤ c && c ≤ 'Z' then Char.ofNat (c.toNat + 32) else c

def parseSignL : List Char → Bool × List Char
  | '+' :: cs => (false, cs)
  | '-' :: cs => (true, cs)
  | cs => (false, cs)

/-- Consume a leading run of decimal digits, returning the accumulated value,
the number of digits consumed, and the rest. -/
def takeDigits : List Char → Nat → Nat → Nat × Nat × List Char
  | [], v, n => (v, n, [])
  | c :: cs, v, n =>
    if c.isDigit then takeDigits cs (10 * v + (c.toNat - 48)) (n + 1)
    else (v, n, c :: cs)

/-- Parse the optional exponent part and require the end of input. -/
def parseExpPart : List Char → ℚ → Option ℚ
  | [], m => some m
  | c :: cs, m =>
    if c = 'e' || c = 'E' then
      let (neg, cs1) := parseSignL cs
      let (ev, ec, cs2) := takeDigits cs1 0 0
      if ec = 0 || !cs2.isEmpty then none
      else some (if neg then m / (10 ^ ev) else m * (10 ^ ev))
    else none

/-- Parse `digits [. digits] [exponent]` with at least one mantissa digit. -/
def parseNumeric (cs : List Char) : Option ℚ :=
  let (ip, ic, cs1) := takeDigits cs 0 0
  match cs1 with
  | '.' :: cs2 =>
    let (fp, fc, cs3) := takeDigits cs2 0 0
    if ic = 0 && fc = 0 then none
    else parseExpPart cs3 ((ip : ℚ) + (fp : ℚ) / (10 ^ fc))
  | _ => if ic = 0 then none else parseExpPart cs1 (ip : ℚ)

/-- Python permits `_` in numeric literals only between two digits. -/
def underscoreOkAux : Char → List Char → Bool
  | _, [] => true
  | p, c :: cs =>
    if c = '_' then
      (p.isDigit && (match cs with | d :: _ => d.isDigit | [] => false))
        && underscoreOkAux c cs
    else underscoreOkAux c cs

def numericCharsOk (cs : List Char) : Bool := underscoreOkAux 'x' cs

def matchesCI (pat cs : List Char) : Bool := cs.map asciiLower == pat

/-- Embeds Python `float(s)`: strips whitespace, accepts an optional sign
followed by `inf`, `infinity` or `nan` (case-insensitive) or a decimal
literal; returns `none` exactly when Python raises `ValueError`. -/
def pyFloatOfString (s : String) : Option PyFloat :=
  let cs := stripList s.data
  let (neg, cs1) := parseSignL cs
  if matchesCI ['i', 'n', 'f'] cs1
      || matchesCI ['i', 'n', 'f', 'i', 'n', 'i', 't', 'y'] cs1 then
    some (if neg then .ninf else .inf)
  else if matchesCI ['n', 'a', 'n'] cs1 then
    some .nan
  else if numericCharsOk cs1 then
    (parseNumeric (cs1.filter (fun c => c != '_'))).map
      (fun q => .finite (if neg then -q else q))
  else none

/-! ### Database model

A row of `ns.coordinates` (`study_id, x, y, z`, the coordinate columns
nullable) and a row of `ns.metadata` (`study_id, title, journal, year`). -/

structure CoordRec where
  study_id : Int
  x : Option ℚ
  y : Option ℚ
  z : Option ℚ
deriving DecidableEq, Repr

structure MetaRec where
  study_id : Int
  title : String
  journal : String
  year : Int
deriving DecidableEq, Repr

structure DB where
  coordinates : List CoordRec
  metadata : List MetaRec
deriving DecidableEq, Repr

/-! ### Sorted, duplicate-free id lists (`SELECT DISTINCT ... ORDER BY`) -/

/-- Insert into a strictly increasing list, dropping duplicates. -/
def sIns (x : Int) : List Int → List Int
  | [] => [x]
  | y :: ys => if x < y then x :: y :: ys else if x = y then y :: ys else y :: sIns x ys

/-- The set of elements of `l` as a strictly increasing list. -/
def sortedDedup (l : List Int) : List Int := l.foldr sIns []

/-! ### The `dissociate_locations` query (app.py lines 206-229)

```
WITH a AS (SELECT DISTINCT study_id FROM ns.coordinates
           WHERE x IS NOT NULL AND y IS NOT NULL AND z IS NOT NULL
             AND ((x-:x1)*(x-:x1)+(y-:y1)*(y-:y1)+(z-:z1)*(z-:z1)) <= :rin2),
     b AS (... same with :x2,:y2,:z2,:rout2 ...)
SELECT a.study_id FROM a LEFT JOIN b USING (study_id)
WHERE b.study_id IS NULL ORDER BY a.study_id LIMIT 2000
```
-/

def pySq (t : PyFloat) : PyFloat := pyMul t t

def rowDist2 (x y z : ℚ) (p : PF3) : PyFloat :=
  pyAdd (pyAdd (pySq (pySub (.finite x) p.1)) (pySq (pySub (.finite y) p.2.1)))
    (pySq (pySub (.finite z) p.2.2))

/-- The `WHERE` clause of each CTE: all three columns non-NULL and squared
distance to the target at most the squared radius. -/
def rowWithin (row : CoordRec) (p : PF3) (r2 : PyFloat) : Bool :=
  match row.x, row.y, row.z with
  | some x, some y, some z => pyLe (rowDist2 x y z p) r2
  | _, _, _ => false

/-- `SELECT DISTINCT study_id FROM ns.coordinates WHERE ...`: the set of
member study ids, as a strictly increasing list. -/
def radiusMembers (coords : List CoordRec) (p : PF3) (r2 : PyFloat) : List Int :=
  sortedDedup ((coords.filter (fun row => rowWithin row p r2)).map (fun row => row.study_id))

/-- `FROM a LEFT JOIN b USING (study_id) WHERE b.study_id IS NULL`. -/
def antiJoin (a b : List Int) : List Int :=
  a.filter (fun s => decide (s ∉ b))

/-- The full id query: anti-join of the two distinct member sets, in
ascending `study_id` order, capped by `LIMIT 2000`. -/
def locQueryIds (db : DB) (c1 c2 : PF3) (rin2 rout2 : PyFloat) : List Int :=
  (antiJoin (radiusMembers db.coordinates c1 rin2)
    (radiusMembers db.coordinates c2 rout2)).take 2000

/-- Insertion sort of metadata rows by `study_id` (the metadata sample query
sorts by `study_id`; ordering among rows sharing a `study_id` is not
specified by SQL, the model fixes one deterministically). -/
def metaInsert (m : MetaRec) : List MetaRec → List MetaRec
  | [] => [m]
  | n :: ns => if m.study_id ≤ n.study_id then m :: n :: ns else n :: metaInsert m ns

def sortMetaById (l : List MetaRec) : List MetaRec := l.foldr metaInsert []

/-- `SELECT ... FROM ns.metadata m WHERE m.study_id = ANY(:ids)
ORDER BY m.study_id LIMIT 100` (app.py lines 234-240). -/
def sampleMeta (meta : List MetaRec) (ids : List Int) : List MetaRec :=
  (sortMetaById (meta.filter (fun m => decide (m.study_id ∈ ids)))).take 100

/-! ### The HTTP handler `dissociate_locations` (app.py lines 166-255) -/

deriving instance DecidableEq for Except

structure HttpErr where
  code : Nat
  message : String
deriving DecidableEq, Repr

/-- The JSON envelope returned by the handler: `ok`, `mode`, the echoed
params, and the `a_but_not_b` payload (`count`, `study_ids`, truncated to
200 entries, and `sample_metadata`). -/
structure LocResponse where
  ok : Bool
  mode : String
  coord_a : PF3
  coord_b : PF3
  r_in : PyFloat
  r_out : PyFloat
  count : Nat
  study_ids : List Int
  sample_metadata : List MetaRec
deriving DecidableEq, Repr

def invalidMsg (s : String) : String :=
  "Invalid coordinate format: " ++ s ++ ". Use x_y_z, e.g., 0_-52_26"

/-- The list comprehension `[float(tok) for tok in s.split("_")]`: fails as
soon as one token fails to parse. -/
def floatTokens : List String → Option (List PyFloat)
  | [] => some []
  | t :: ts =>
    match pyFloatOfString t, floatTokens ts with
    | some v, some vs => some (v :: vs)
    | _, _ => none

/-- `parse_xyz` of the complete handler (app.py lines 179-184): split on
`_`, parse every token as a float, require exactly three values; any
failure aborts with the 400 message. -/
def parse_xyz (s : String) : Except String PF3 :=
  match floatTokens (splitOnUnderscore s) with
  | some [x, y, z] => .ok (x, y, z)
  | _ => .error (invalidMsg s)

/-- `float(request.args.get("r_in", "2"))` under `try/except`: missing
argument parses the default string `"2"`; an unparsable argument falls back
to `2.0`. -/
def parseRadius (arg : Option String) : PyFloat :=
  match arg with
  | none => .finite 2
  | some s => (pyFloatOfString s).getD (.finite 2)

/-- The handler body after parameter parsing: square the radii, run the id
query, fetch the metadata sample when the id list is non-empty, and build
the response (count before the 200-entry display truncation). -/
def locCore (db : DB) (c1 c2 : PF3) (r_in r_out : PyFloat) : LocResponse :=
  let ids := locQueryIds db c1 c2 (pyMul r_in r_in) (pyMul r_out r_out)
  { ok := true
    mode := "locations_xyzdist"
    coord_a := c1
    coord_b := c2
    r_in := r_in
    r_out := r_out
    count := ids.length
    study_ids := ids.take 200
    sample_metadata := if ids.isEmpty then [] else sampleMeta db.metadata ids }

/-- The complete `dissociate_locations` handler: parse `coords1`, then
`coords2` (each aborting with HTTP 400 on failure, before any database
access), then the radii, then run the query. -/
def dissociate_locations (db : DB) (coords1 coords2 : String)
    (rinArg routArg : Option String) : Except HttpErr LocResponse :=
  match parse_xyz coords1 with
  | .error m => .error ⟨400, m⟩
  | .ok c1 =>
    match parse_xyz coords2 with
    | .error m => .error ⟨400, m⟩
    | .ok c2 => .ok (locCore db c1 c2 (parseRadius rinArg) (parseRadius routArg))

/-! ### Flask route registration (`create_app`, app.py lines 26-309)

Flask's `add_url_rule` keeps a mapping from endpoint name to view function
and raises `AssertionError: View function mapping is overwriting an existing
endpoint function: <endpoint>` when an endpoint name is re-registered with a
different function object.  View functions are identified by a number. -/

structure FlaskApp where
  view_functions : List (String × Nat)
  url_rules : List (String × String)
deriving DecidableEq, Repr

def add_url_rule (a : FlaskApp) (rule endpointName : String) (fid : Nat) :
    Except String FlaskApp :=
  match a.view_functions.lookup endpointName with
  | some old =>
    if old = fid then .ok { a with url_rules := (rule, endpointName) :: a.url_rules }
    else .error ("View function mapping is overwriting an existing endpoint function: "
      ++ endpointName)
  | none =>
    .ok { view_functions := (endpointName, fid) :: a.view_functions
          url_rules := (rule, endpointName) :: a.url_rules }

/-- `create_app` registers, in order: `health`, `show_img`,
`dissociate_terms`, the first `dissociate_locations` view (app.py line 104),
the second, distinct `dissociate_locations` view (line 166), and `test_db`.
The module then evaluates `app = create_app()` (line 309). -/
def create_app : Except String FlaskApp := do
  let a0 : FlaskApp := ⟨[], []⟩
  let a1 ← add_url_rule a0 "/" "health" 0
  let a2 ← add_url_rule a1 "/img" "show_img" 1
  let a3 ← add_url_rule a2 "/dissociate/terms/<term_a>/<term_b>" "dissociate_terms" 2
  let a4 ← add_url_rule a3 "/dissociate/locations/<coords1>/<coords2>" "dissociate_locations" 3
  let a5 ← add_url_rule a4 "/dissociate/locations/<coords1>/<coords2>" "dissociate_locations" 4
  add_url_rule a5 "/test_db" "test_db" 5

/-! ### Auxiliary definitions used by the claim statements -/

/-- A coordinate string the code treats as malformed: wrong token count or
a token Python `float()` rejects. -/
def badCoordStr (s : String) : Prop :=
  (splitOnUnderscore s).length ≠ 3 ∨ ∃ t ∈ splitOnUnderscore s, pyFloatOfString t = none

instance (s : String) : Decidable (badCoordStr s) := by
  unfold badCoordStr
  infer_instance

/-- Modelled from the spec's amended wording for term normalization:
replace underscores with single spaces and strip leading/trailing
whitespace, with no lowercasing step. -/
def normAmendedSpec (s : String) : String := pyStrip (pyReplUnderscoreSpace s)

/-- The result portion of a response (everything except the echoed
parameters): `count`, `study_ids`, `sample_metadata`. -/
def resultPart (r : LocResponse) : Nat × List Int × List MetaRec :=
  (r.count, r.study_ids, r.sample_metadata)

/-! ### Concrete example database used by witnesses and counterexamples -/

def dbEx : DB :=
  { coordinates :=
      [ { study_id := 7, x := some 0, y := some (-52), z := some 26 }
      , { study_id := 9, x := some 3, y := some 0, z := some 0 } ]
  , metadata := [ { study_id := 7, title := "t", journal := "j", year := 2020 } ] }

/-- The response produced for identical coordinate strings `0_-52_26` with
default radii against `dbEx`. -/
def respW : LocResponse :=
  { ok := true
    mode := "locations_xyzdist"
    coord_a := (.finite 0, .finite (-52), .finite 26)
    coord_b := (.finite 0, .finite (-52), .finite 26)
    r_in := .finite 2
    r_out := .finite 2
    count := 0
    study_ids := []
    sample_metadata := [] }

/-! ### Lemmas about the sorted duplicate-free id lists -/

theorem mem_sIns {a x : Int} {l : List Int} : a ∈ sIns x l ↔ a = x ∨ a ∈ l := by
  induction l with
  | nil => simp [sIns]
  | cons y ys ih =>
    by_cases h1 : x < y
    · simp [sIns, h1]
    · by_cases h2 : x = y
      · subst h2
        simp [sIns, h1]
      · simp [sIns, h1, h2, ih]
        tauto

theorem pairwise_sIns {x : Int} {l : List Int} (h : l.Pairwise (· < ·)) :
    (sIns x l).Pairwise (· < ·) := by
  induction l with
  | nil => simp [sIns]
  | cons y ys ih =>
    rcases List.pairwise_cons.mp h with ⟨hy, hys⟩
    by_cases h1 : x < y
    · have hstep : sIns x (y :: ys) = x :: y :: ys := by
        rw [sIns, if_pos h1]
      rw [hstep]
      refine List.pairwise_cons.mpr ⟨?_, h⟩
      intro z hz
      rcases List.mem_cons.mp hz with hz | hz
      · exact hz ▸ h1
      · exact h1.trans (hy z hz)
    · by_cases h2 : x = y
      · simpa [sIns, h1, h2] using h
      · have hyx : y < x := by omega
        have hstep : sIns x (y :: ys) = y :: sIns x ys := by
          rw [sIns, if_neg h1, if_neg h2]
        rw [hstep]
        refine List.pairwise_cons.mpr ⟨?_, ih hys⟩
        intro z hz
        rcases mem_sIns.mp hz with hz | hz
        · exact hz ▸ hyx
        · exact hy z hz

theorem pairwise_sortedDedup (l : List Int) : (sortedDedup l).Pairwise (· < ·) := by
  induction l with
  | nil => simp [sortedDedup]
  | cons x xs ih => exact pairwise_sIns ih

theorem mem_sortedDedup {a : Int} {l : List Int} : a ∈ sortedDedup l ↔ a ∈ l := by
  induction l with
  | nil => simp [sortedDedup]
  | cons x xs ih =>
    simp only [sortedDedup, List.foldr_cons] at *
    rw [mem_sIns, ih, List.mem_cons]

theorem nodup_of_pairwise_lt {l : List Int} (h : l.Pairwise (· < ·)) : l.Nodup :=
  h.imp (fun hab => ne_of_lt hab)

/-! ### Lemmas about the anti-join -/

theorem mem_antiJoin {s : Int} {a b : List Int} :
    s ∈ antiJoin a b ↔ s ∈ a ∧ s ∉ b := by
  simp [antiJoin]

theorem antiJoin_self (a : List Int) : antiJoin a a = [] := by
  simp [antiJoin, List.filter_eq_nil_iff]

theorem pairwise_antiJoin {a b : List Int} (h : a.Pairwise (· < ·)) :
    (antiJoin a b).Pairwise (· < ·) :=
  List.Pairwise.sublist (List.filter_sublist a) h

/-! ### Reduction of the float operations on finite values -/

theorem pySub_finite (a b : ℚ) : pySub (.finite a) (.finite b) = .finite (a - b) := by
  simp [pySub, pyAdd, pyNeg, sub_eq_add_neg]

theorem pyMul_finite (a b : ℚ) : pyMul (.finite a) (.finite b) = .finite (a * b) := rfl

theorem pyAdd_finite (a b : ℚ) : pyAdd (.finite a) (.finite b) = .finite (a + b) := rfl

theorem pyLe_finite (a b : ℚ) : pyLe (.finite a) (.finite b) = decide (a ≤ b) := rfl

theorem rowDist2_finite (x y z x0 y0 z0 : ℚ) :
    rowDist2 x y z (.finite x0, .finite y0, .finite z0)
      = .finite ((x - x0) * (x - x0) + (y - y0) * (y - y0) + (z - z0) * (z - z0)) := by
  simp [rowDist2, pySq, pySub_finite, pyMul_finite, pyAdd_finite]

/-- `(-r) * (-r) = r * r` for every float, special values included. -/
theorem pyMul_pyNeg_pyNeg (r : PyFloat) : pyMul (pyNeg r) (pyNeg r) = pyMul r r := by
  cases r with
  | finite q => simp [pyNeg, pyMul_finite, neg_mul_neg]
  | inf => rfl
  | ninf => rfl
  | nan => rfl

/-! ### Lemmas about coordinate-token parsing -/

theorem floatTokens_length {l : List String} {vs : List PyFloat}
    (h : floatTokens l = some vs) : vs.length = l.length := by
  induction l generalizing vs with
  | nil => simp [floatTokens] at h; simp [← h]
  | cons t ts ih =>
    rw [floatTokens] at h
    cases hp : pyFloatOfString t with
    | none => rw [hp] at h; exact absurd h (by simp)
    | some v =>
      rw [hp] at h
      cases hr : floatTokens ts with
      | none => rw [hr] at h; exact absurd h (by simp)
      | some ws =>
        rw [hr] at h
        simp only [Option.some.injEq] at h
        simp [← h, ih hr]

theorem floatTokens_eq_none {l : List String}
    (h : ∃ t ∈ l, pyFloatOfString t = none) : floatTokens l = none := by
  induction l with
  | nil => simp at h
  | cons t ts ih =>
    rw [floatTokens]
    rcases h with ⟨u, hu, hnone⟩
    rcases List.mem_cons.mp hu with hu | hu
    · have h1 : pyFloatOfString t = none := hu ▸ hnone
      rw [h1]
    · rw [ih ⟨u, hu, hnone⟩]
      cases pyFloatOfString t <;> rfl

theorem parse_xyz_bad {s : String} (h : badCoordStr s) :
    parse_xyz s = .error (invalidMsg s) := by
  rw [parse_xyz]
  cases hft : floatTokens (splitOnUnderscore s) with
  | none => rfl
  | some vs =>
    rcases h with h | h
    · have hlen : vs.length = (splitOnUnderscore s).length := floatTokens_length hft
      rcases vs with _ | ⟨x, _ | ⟨y, _ | ⟨z, _ | ⟨w, vs'⟩⟩⟩⟩ <;>
        simp_all
    · exact absurd hft (by rw [floatTokens_eq_none h]; simp)

/-- Characters of a stripped list come from the original list. -/
theorem mem_stripList {c : Char} {l : List Char} (h : c ∈ stripList l) : c ∈ l := by
  simp only [stripList, List.mem_reverse] at h
  have h1 : c ∈ (l.dropWhile isPyWs).reverse := (List.dropWhile_sublist _).subset h
  rw [List.mem_reverse] at h1
  exact (List.dropWhile_sublist _).subset h1

/-- Evaluation form of the row predicate on a fully populated row against
finite parameters. -/
theorem rowWithin_mk (sid : Int) (x y z x0 y0 z0 r2 : ℚ) :
    rowWithin ⟨sid, some x, some y, some z⟩ (.finite x0, .finite y0, .finite z0) (.finite r2)
      = decide ((x - x0) * (x - x0) + (y - y0) * (y - y0) + (z - z0) * (z - z0) ≤ r2) := by
  simp [rowWithin, rowDist2_finite, pyLe_finite]

/-- The A-side member set of the C8 counterexample query. -/
theorem radiusMembers_dbEx_origin_25 :
    radiusMembers dbEx.coordinates (.finite 0, .finite 0, .finite 0) (.finite 25) = [9] := by
  rw [radiusMembers]
  norm_num [dbEx, List.filter, rowWithin_mk, sortedDedup, sIns]

/-- The B-side member set of the C8 counterexample query. -/
theorem radiusMembers_dbEx_far_4 :
    radiusMembers dbEx.coordinates (.finite 100, .finite 0, .finite 0) (.finite 4) = [] := by
  rw [radiusMembers]
  norm_num [dbEx, List.filter, rowWithin_mk, sortedDedup]

/-! ## The claims -/

/-- C1: `create_app` registers two distinct view functions for the route
`/dissociate/locations/<coords1>/<coords2>` under the same endpoint name
`dissociate_locations`; the second registration conflicts with the first,
so the module-level `app = create_app()` raises and never yields a working
service. -/
theorem C1_create_app_endpoint_conflict :
    create_app = Except.error
      "View function mapping is overwriting an existing endpoint function: dissociate_locations" := by
  rfl

/-- C2 (counterexample): a coordinate string with a non-finite token is NOT
rejected: `parse_xyz "nan_0_0"` succeeds, and the handler proceeds to run
the query (returning 200) instead of responding with a 400-class status. -/
theorem C2_counterexample_nonfinite_token_accepted :
    parse_xyz "nan_0_0" = Except.ok (PyFloat.nan, PyFloat.finite 0, PyFloat.finite 0) ∧
    dissociate_locations dbEx "nan_0_0" "0_0_0" none none
      = Except.ok (locCore dbEx (PyFloat.nan, PyFloat.finite 0, PyFloat.finite 0)
          (PyFloat.finite 0, PyFloat.finite 0, PyFloat.finite 0)
          (PyFloat.finite 2) (PyFloat.finite 2)) := by
  have h1 : parse_xyz "nan_0_0" = Except.ok (PyFloat.nan, PyFloat.finite 0, PyFloat.finite 0) := by
    decide
  have h2 : parse_xyz "0_0_0"
      = Except.ok (PyFloat.finite 0, PyFloat.finite 0, PyFloat.finite 0) := by
    decide
  refine ⟨h1, ?_⟩
  simp [dissociate_locations, h1, h2, parseRadius]

/-- C2 (amended): for every coordinate string whose token count differs
from 3 or that has a token Python `float()` rejects, parsing fails with the
`Invalid coordinate format` message and the handler answers HTTP 400 — for
every database, i.e. without the query's result entering — whether the bad
string is the first or the second coordinate.  (Non-finite tokens such as
`nan` or `inf` parse successfully and are not rejected.) -/
theorem C2_malformed_coordinates_abort_400 :
    ∀ (s t : String) (db : DB) (a1 a2 : Option String), badCoordStr s →
      parse_xyz s = .error (invalidMsg s) ∧
      dissociate_locations db s t a1 a2 = .error ⟨400, invalidMsg s⟩ ∧
      (∀ v : PF3, parse_xyz t = .ok v →
        dissociate_locations db t s a1 a2 = .error ⟨400, invalidMsg s⟩) := by
  intro s t db a1 a2 hbad
  have hp := parse_xyz_bad hbad
  refine ⟨hp, ?_, ?_⟩
  · simp [dissociate_locations, hp]
  · intro v hv
    simp [dissociate_locations, hp, hv]

theorem C2_malformed_coordinates_abort_400_witness :
    badCoordStr "1_2" ∧
    parse_xyz "1_2" = Except.error (invalidMsg "1_2") ∧
    dissociate_locations dbEx "1_2" "0_0_0" none none = Except.error ⟨400, invalidMsg "1_2"⟩ ∧
    dissociate_locations dbEx "0_0_0" "1_2" none none = Except.error ⟨400, invalidMsg "1_2"⟩ := by
  have hb : badCoordStr "1_2" := by decide
  have h := C2_malformed_coordinates_abort_400 "1_2" "0_0_0" dbEx none none hb
  exact ⟨hb, h.1, h.2.1,
    h.2.2 (PyFloat.finite 0, PyFloat.finite 0, PyFloat.finite 0) (by decide)⟩

/-- C3: every `study_id` in the location-radius membership set has at least
one coordinate record whose squared distance to the target point is at most
the squared radius, boundary included. -/
theorem C3_radius_membership_sound :
    ∀ (coords : List CoordRec) (x0 y0 z0 r : ℚ) (sid : Int),
      sid ∈ radiusMembers coords (.finite x0, .finite y0, .finite z0)
          (pyMul (.finite r) (.finite r)) →
      ∃ row ∈ coords, row.study_id = sid ∧ ∃ x y z : ℚ,
        row.x = some x ∧ row.y = some y ∧ row.z = some z ∧
        (x - x0) * (x - x0) + (y - y0) * (y - y0) + (z - z0) * (z - z0) ≤ r * r := by
  intro coords x0 y0 z0 r sid hmem
  rw [radiusMembers, mem_sortedDedup] at hmem
  rcases List.mem_map.mp hmem with ⟨row, hrow, hid⟩
  rcases List.mem_filter.mp hrow with ⟨hrowmem, hwithin⟩
  refine ⟨row, hrowmem, hid, ?_⟩
  cases hx : row.x with
  | none => simp [rowWithin, hx] at hwithin
  | some x =>
    cases hy : row.y with
    | none => simp [rowWithin, hx, hy] at hwithin
    | some y =>
      cases hz : row.z with
      | none => simp [rowWithin, hx, hy, hz] at hwithin
      | some z =>
        refine ⟨x, y, z, rfl, rfl, rfl, ?_⟩
        simp [rowWithin, hx, hy, hz, rowDist2_finite, pyMul_finite, pyLe_finite] at hwithin
        exact hwithin

theorem C3_radius_membership_sound_witness :
    ∃ row ∈ dbEx.coordinates, row.study_id = 9 ∧ ∃ x y z : ℚ,
      row.x = some x ∧ row.y = some y ∧ row.z = some z ∧
      (x - 0) * (x - 0) + (y - 0) * (y - 0) + (z - 0) * (z - 0) ≤ 4 * 4 :=
  C3_radius_membership_sound dbEx.coordinates 0 0 0 4 9 (by
    have e : pyMul (PyFloat.finite 4) (PyFloat.finite 4) = PyFloat.finite 16 := by
      rw [pyMul_finite]
      norm_num
    rw [e, radiusMembers, mem_sortedDedup]
    norm_num [dbEx, List.filter, rowWithin_mk])

/-- C4: the dissociation query is exactly `A \ B`: a `study_id` is in the
anti-join of the two member sets precisely when it is in A and has no row
in B, and the id query is that anti-join (ascending, capped at 2000). -/
theorem C4_dissociation_is_anti_join :
    ∀ (db : DB) (c1 c2 : PF3) (rin2 rout2 : PyFloat) (sid : Int),
      (sid ∈ antiJoin (radiusMembers db.coordinates c1 rin2)
          (radiusMembers db.coordinates c2 rout2) ↔
        sid ∈ radiusMembers db.coordinates c1 rin2 ∧
          sid ∉ radiusMembers db.coordinates c2 rout2) ∧
      locQueryIds db c1 c2 rin2 rout2
        = (antiJoin (radiusMembers db.coordinates c1 rin2)
            (radiusMembers db.coordinates c2 rout2)).take 2000 :=
  fun _ _ _ _ _ _ => ⟨mem_antiJoin, rfl⟩

/-- C5: identical dissociation conditions — the same coordinate string and
the same radius argument on both sides — give an empty result regardless of
database content. -/
theorem C5_identical_conditions_empty :
    ∀ (db : DB) (s : String) (a : Option String) (resp : LocResponse),
      dissociate_locations db s s a a = .ok resp →
      resp.count = 0 ∧ resp.study_ids = [] ∧ resp.sample_metadata = [] := by
  intro db s a resp h
  rw [dissociate_locations] at h
  cases hp : parse_xyz s with
  | error m => rw [hp] at h; exact absurd h (by simp)
  | ok c =>
    rw [hp] at h
    simp only [Except.ok.injEq] at h
    have hids : locQueryIds db c c (pyMul (parseRadius a) (parseRadius a))
        (pyMul (parseRadius a) (parseRadius a)) = [] := by
      rw [locQueryIds, antiJoin_self]
      rfl
    rw [← h]
    simp [locCore, hids]

theorem C5_identical_conditions_empty_witness :
    dissociate_locations dbEx "0_-52_26" "0_-52_26" none none = Except.ok respW ∧
      (respW.count = 0 ∧ respW.study_ids = [] ∧ respW.sample_metadata = []) := by
  have hp : parse_xyz "0_-52_26"
      = Except.ok (PyFloat.finite 0, PyFloat.finite (-52), PyFloat.finite 26) := by
    decide
  have hids : locQueryIds dbEx (PyFloat.finite 0, PyFloat.finite (-52), PyFloat.finite 26)
      (PyFloat.finite 0, PyFloat.finite (-52), PyFloat.finite 26)
      (pyMul (PyFloat.finite 2) (PyFloat.finite 2))
      (pyMul (PyFloat.finite 2) (PyFloat.finite 2)) = [] := by
    rw [locQueryIds, antiJoin_self]
    rfl
  have h : dissociate_locations dbEx "0_-52_26" "0_-52_26" none none = Except.ok respW := by
    simp [dissociate_locations, hp, locCore, hids, respW, parseRadius]
  exact ⟨h, C5_identical_conditions_empty dbEx "0_-52_26" none respW h⟩

/-- C6 (counterexample): `norm` does not lowercase — on
`"Posterior_Cingulate"` it yields `"Posterior Cingulate"`, not the
lowercased string the claim requires. -/
theorem C6_counterexample_norm_preserves_case :
    norm "Posterior_Cingulate" = "Posterior Cingulate" ∧
    norm "Posterior_Cingulate" ≠ "posterior cingulate" :=
  ⟨by decide, by decide⟩

/-- C6 (amended): term normalization replaces underscores with single
spaces and strips leading/trailing whitespace, but performs no
lowercasing: it agrees with the amended spec transform, its output has no
underscores, and every output character is a space or an unchanged input
character. -/
theorem C6_norm_replaces_and_strips_without_lowercasing :
    ∀ s : String, norm s = normAmendedSpec s ∧ '_' ∉ (norm s).data ∧
      ∀ c ∈ (norm s).data, c = ' ' ∨ c ∈ s.data := by
  intro s
  refine ⟨rfl, ?_, ?_⟩
  · intro hmem
    have h1 : '_' ∈ s.data.map (fun c => if c = '_' then ' ' else c) := by
      have := mem_stripList (l := s.data.map (fun c => if c = '_' then ' ' else c))
        (by simpa [norm, pyStrip, pyReplUnderscoreSpace] using hmem)
      exact this
    rcases List.mem_map.mp h1 with ⟨c0, _, hrepl⟩
    by_cases hc : c0 = '_' <;> simp [hc] at hrepl
  · intro c hc
    have h1 : c ∈ s.data.map (fun c => if c = '_' then ' ' else c) :=
      mem_stripList (by simpa [norm, pyStrip, pyReplUnderscoreSpace] using hc)
    rcases List.mem_map.mp h1 with ⟨c0, hc0, hrepl⟩
    by_cases hcu : c0 = '_'
    · left
      rw [← hrepl, hcu]
      rfl
    · right
      rw [← hrepl, if_neg hcu]
      exact hc0

theorem C6_norm_replaces_and_strips_without_lowercasing_witness :
    norm "A_b" = normAmendedSpec "A_b" ∧ '_' ∉ (norm "A_b").data ∧
      ('A' = ' ' ∨ 'A' ∈ "A_b".data) :=
  ⟨(C6_norm_replaces_and_strips_without_lowercasing "A_b").1,
    (C6_norm_replaces_and_strips_without_lowercasing "A_b").2.1,
    (C6_norm_replaces_and_strips_without_lowercasing "A_b").2.2 'A' (by decide)⟩

/-- C7: the reported `count` is the length of the id list before the
200-entry display truncation; the returned `study_ids` list is that list
truncated to 200 entries and hence never longer than 200. -/
theorem C7_count_before_truncation_and_display_cap :
    ∀ (db : DB) (c1 c2 : PF3) (r_in r_out : PyFloat),
      (locCore db c1 c2 r_in r_out).count
          = (locQueryIds db c1 c2 (pyMul r_in r_in) (pyMul r_out r_out)).length ∧
      (locCore db c1 c2 r_in r_out).study_ids
          = (locQueryIds db c1 c2 (pyMul r_in r_in) (pyMul r_out r_out)).take 200 ∧
      (locCore db c1 c2 r_in r_out).study_ids.length ≤ 200 := by
  intro db c1 c2 r_in r_out
  refine ⟨rfl, rfl, ?_⟩
  simp only [locCore, List.length_take]
  exact min_le_left _ _

/-- C8 (counterexample): a radius that parses to a negative number is
neither clamped nor rejected: with `r_in = -5`, study 9 (at squared
distance 9 from the target) is returned, because `-5` is squared to `25`
and passed into the query; `parseRadius` hands the negative value through
unchanged. -/
theorem C8_counterexample_negative_radius_used :
    parseRadius (some "-5") = PyFloat.finite (-5) ∧
    dissociate_locations dbEx "0_0_0" "100_0_0" (some "-5") none
      = Except.ok
        { ok := true
          mode := "locations_xyzdist"
          coord_a := (.finite 0, .finite 0, .finite 0)
          coord_b := (.finite 100, .finite 0, .finite 0)
          r_in := .finite (-5)
          r_out := .finite 2
          count := 1
          study_ids := [9]
          sample_metadata := [] } := by
  have hr : parseRadius (some "-5") = PyFloat.finite (-5) := by decide
  have hp1 : parse_xyz "0_0_0"
      = Except.ok (PyFloat.finite 0, PyFloat.finite 0, PyFloat.finite 0) := by decide
  have hp2 : parse_xyz "100_0_0"
      = Except.ok (PyFloat.finite 100, PyFloat.finite 0, PyFloat.finite 0) := by decide
  have hm1 : pyMul (parseRadius (some "-5")) (parseRadius (some "-5")) = PyFloat.finite 25 := by
    rw [hr, pyMul_finite]
    norm_num
  have hm2 : pyMul (parseRadius none) (parseRadius none) = PyFloat.finite 4 := by
    show pyMul (PyFloat.finite 2) (PyFloat.finite 2) = PyFloat.finite 4
    rw [pyMul_finite]
    norm_num
  have hq : locQueryIds dbEx (PyFloat.finite 0, PyFloat.finite 0, PyFloat.finite 0)
      (PyFloat.finite 100, PyFloat.finite 0, PyFloat.finite 0)
      (pyMul (parseRadius (some "-5")) (parseRadius (some "-5")))
      (pyMul (parseRadius none) (parseRadius none)) = [9] := by
    rw [hm1, hm2, locQueryIds, radiusMembers_dbEx_origin_25, radiusMembers_dbEx_far_4]
    rfl
  have hsm : sampleMeta dbEx.metadata [9] = [] := by
    simp [sampleMeta, dbEx, sortMetaById, List.filter]
  refine ⟨hr, ?_⟩
  simp only [dissociate_locations, hp1, hp2]
  simp [locCore, hq, hsm]
  exact ⟨hr, rfl⟩

/-- C8 (amended): each radius defaults to 2 when unspecified (and when the
argument fails to parse); negative radii are not clamped or rejected — the
radius is squared before entering the query, so a negative radius produces
exactly the query of its absolute value. -/
theorem C8_default_radius_and_negative_squared :
    parseRadius none = PyFloat.finite 2 ∧
    (∀ s : String, pyFloatOfString s = none → parseRadius (some s) = PyFloat.finite 2) ∧
    (∀ (db : DB) (c1 c2 : PF3) (q : ℚ) (rout2 : PyFloat),
      locQueryIds db c1 c2 (pyMul (.finite q) (.finite q)) rout2
        = locQueryIds db c1 c2 (pyMul (.finite |q|) (.finite |q|)) rout2) := by
  refine ⟨rfl, ?_, ?_⟩
  · intro s hs
    simp [parseRadius, hs]
  · intro db c1 c2 q rout2
    have h : pyMul (PyFloat.finite q) (PyFloat.finite q)
        = pyMul (PyFloat.finite |q|) (PyFloat.finite |q|) := by
      simp [pyMul_finite, abs_mul_abs_self]
    rw [h]

theorem C8_default_radius_and_negative_squared_witness :
    parseRadius none = PyFloat.finite 2 ∧
    parseRadius (some "abc") = PyFloat.finite 2 ∧
    locQueryIds dbEx (.finite 0, .finite 0, .finite 0) (.finite 100, .finite 0, .finite 0)
        (pyMul (.finite (-5)) (.finite (-5))) (.finite 4)
      = locQueryIds dbEx (.finite 0, .finite 0, .finite 0) (.finite 100, .finite 0, .finite 0)
        (pyMul (.finite 5) (.finite 5)) (.finite 4) := by
  have h := C8_default_radius_and_negative_squared
  have h3 := h.2.2 dbEx (.finite 0, .finite 0, .finite 0)
    (.finite 100, .finite 0, .finite 0) (-5) (.finite 4)
  have habs : |(-5 : ℚ)| = 5 := by norm_num
  rw [habs] at h3
  exact ⟨h.1, h.2.1 "abc" (by decide), h3⟩

/-- C9: both member sets are duplicate-free before the set subtraction, and
the id query's output — and the truncated `study_ids` list in the
response — is strictly increasing, hence duplicate-free. -/
theorem C9_dedup_before_subtraction_and_ascending_output :
    ∀ (db : DB) (c1 c2 : PF3) (r_in r_out : PyFloat),
      (radiusMembers db.coordinates c1 (pyMul r_in r_in)).Nodup ∧
      (radiusMembers db.coordinates c2 (pyMul r_out r_out)).Nodup ∧
      (locQueryIds db c1 c2 (pyMul r_in r_in) (pyMul r_out r_out)).Pairwise (· < ·) ∧
      (locCore db c1 c2 r_in r_out).study_ids.Pairwise (· < ·) := by
  intro db c1 c2 r_in r_out
  have hA : (radiusMembers db.coordinates c1 (pyMul r_in r_in)).Pairwise (· < ·) := by
    rw [radiusMembers]
    exact pairwise_sortedDedup _
  have hB : (radiusMembers db.coordinates c2 (pyMul r_out r_out)).Pairwise (· < ·) := by
    rw [radiusMembers]
    exact pairwise_sortedDedup _
  have hQ : (locQueryIds db c1 c2 (pyMul r_in r_in) (pyMul r_out r_out)).Pairwise (· < ·) := by
    rw [locQueryIds]
    exact List.Pairwise.sublist (List.take_sublist _ _) (pairwise_antiJoin hA)
  refine ⟨nodup_of_pairwise_lt hA, nodup_of_pairwise_lt hB, hQ, ?_⟩
  exact List.Pairwise.sublist (List.take_sublist _ _) hQ

/-- C10: since radii are squared before comparison, negating either radius
(or both) leaves the dissociation result — count, id list and metadata
sample — unchanged: a negative radius behaves exactly like its absolute
value. -/
theorem C10_radius_negation_invariance :
    ∀ (db : DB) (c1 c2 : PF3) (r_in r_out : PyFloat),
      resultPart (locCore db c1 c2 (pyNeg r_in) r_out)
          = resultPart (locCore db c1 c2 r_in r_out) ∧
      resultPart (locCore db c1 c2 r_in (pyNeg r_out))
          = resultPart (locCore db c1 c2 r_in r_out) ∧
      resultPart (locCore db c1 c2 (pyNeg r_in) (pyNeg r_out))
          = resultPart (locCore db c1 c2 r_in r_out) := by
  intro db c1 c2 r_in r_out
  refine ⟨?_, ?_, ?_⟩ <;> simp [resultPart, locCore, pyMul_pyNeg_pyNeg]

end App
